import Mathlib

/-!
Verification of the ERP-to-CoreTax row-transformation pipeline
(`src/main.py`, class `CoreTaxConverter`).

Shallow embedding conventions:
* Python numbers are modelled exactly: floats as `PyFloat` (an exact rational
  when finite, plus the IEEE special values `nan`, `inf`, `-inf`), ints as `ℤ`.
  Arithmetic on finite floats is modelled as exact rational arithmetic; the
  spec (section 4.1) licenses this by asking only for a consistently applied,
  documented 2-decimal rounding, which we take to be Python's round-half-to-even.
* `float(s)` applied to a decimal string overflows to `±inf` (without raising)
  once the decimal value reaches the IEEE-double overflow threshold
  `2^1024 - 2^970`; `float(n)` applied to an `int` raises `OverflowError` at
  the same threshold.  Both behaviours are modelled explicitly.
* Python values flowing through one cell are modelled by `PyVal`
  (`None`, `float`, `int`, `str`).
* Exceptions are modelled with `Option` (a raising computation yields `none`)
  and, for exceptions whose cause lies outside the modelled fragment
  (pandas internals in the per-row `try`, the spreadsheet container
  rejecting a value on write), by an explicit oracle parameter.
* String manipulation is done on `List Char` so that every definition
  reduces in the kernel (Python's `.strip`/`.lower` act on ASCII here).
-/

set_option exponentiation.threshold 1100
set_option maxRecDepth 8000

attribute [local semireducible] Rat.add Rat.mul Rat.inv Rat.sub Rat.ofScientific

namespace ErpToCoreTax

/-- IEEE-754 double values as they matter to this pipeline: a finite value
(kept exact as a rational), NaN, +inf, -inf. -/
inductive PyFloat where
  | finite (q : ℚ)
  | nan
  | inf
  | negInf
deriving DecidableEq, Repr

/-- A loosely-typed Python value held by one source-table cell or one record
field: `None`, a float, an int, or a string. -/
inductive PyVal where
  | none
  | float (f : PyFloat)
  | int (n : ℤ)
  | str (s : String)
deriving DecidableEq, Repr

def PyFloat.isFinite : PyFloat → Bool
  | .finite _ => true
  | _ => false

/-- Python `<` on floats: the usual order on finite values, `-inf` below and
`+inf` above everything else, and every comparison with NaN false. -/
def PyFloat.lt : PyFloat → PyFloat → Bool
  | .finite p, .finite q => p < q
  | .finite _, .inf => true
  | .negInf, .finite _ => true
  | .negInf, .inf => true
  | _, _ => false

/-- Python `max(a, b)` (returns `b` exactly when `a < b`). -/
def pymax (a b : PyFloat) : PyFloat := if PyFloat.lt a b then b else a

/-- Embedding of an integer into `ℚ`, written with `mkRat` so that it
whnf-evaluates shallowly; propositionally equal to the standard cast
(`intToQ_eq_cast`). -/
def intToQ (n : ℤ) : ℚ := mkRat n 1

/-- Embedding of a natural into `ℚ`; propositionally equal to the standard
cast (`natToQ_eq_cast`). -/
def natToQ (n : ℕ) : ℚ := mkRat (Int.ofNat n) 1

theorem intToQ_eq_cast (n : ℤ) : intToQ n = (n : ℚ) := by
  simp [intToQ, mkRat, Rat.normalize]

theorem natToQ_eq_cast (n : ℕ) : natToQ n = (n : ℚ) := by
  simp [natToQ, mkRat, Rat.normalize]

/-- The IEEE-double overflow threshold: a decimal value of magnitude at least
`2^1024 - 2^970` rounds (to nearest, ties to even) to `±inf`. -/
def overflowBound : ℚ := natToQ (2 ^ 1024 - 2 ^ 970)

/-- Python's default whitespace set for `str.strip()` (ASCII fragment). -/
def isSpaceChar (c : Char) : Bool :=
  c = ' ' ∨ c = '\t' ∨ c = '\n' ∨ c = '\r' ∨ c = '\x0b' ∨ c = '\x0c'

/-- Python `str.strip()` on the character list of a string. -/
def pyStrip (l : List Char) : List Char :=
  ((l.dropWhile isSpaceChar).reverse.dropWhile isSpaceChar).reverse

/-- Python `str.lower()` (ASCII fragment). -/
def pyLower (l : List Char) : List Char := l.map Char.toLower

/-- Python `str.strip()` packaged on `String`. -/
def pyStripS (s : String) : String := String.mk (pyStrip s.data)

/-- Numeric value of a list of decimal digits (most significant first). -/
def digitsToNat (l : List Char) : ℕ := l.foldl (fun a c => 10 * a + (c.toNat - 48)) 0

def allDigits (l : List Char) : Bool := l.all Char.isDigit

/-- Python `float(s)` parsing restricted to strings over the alphabet of
digits, point and minus (all that survives the regex substitution of line 38):
an optional leading minus, then digits with at most one decimal point and
at least one digit.  Returns the exact decimal value, or `none` when Python
would raise `ValueError`. -/
def parseDecimal (s : List Char) : Option ℚ :=
  let signBody : ℚ × List Char :=
    match s with
    | '-' :: rest => (-1, rest)
    | _ => (1, s)
  let sign := signBody.1
  let body := signBody.2
  match body.span (fun c => ¬ (c = '.')) with
  | (ip, []) =>
    if ip ≠ [] ∧ allDigits ip then some (sign * natToQ (digitsToNat ip)) else Option.none
  | (ip, _ :: fp) =>
    -- the first char of the second component is necessarily the point
    if allDigits ip ∧ allDigits fp ∧ (ip ≠ [] ∨ fp ≠ []) then
      some (sign * (natToQ (digitsToNat ip) + natToQ (digitsToNat fp) / natToQ (10 ^ fp.length)))
    else Option.none

/-- Model of `CoreTaxConverter.clean_numeric_value` (src/main.py lines 23-55),
translated branch by branch:
* `None`, NaN, the empty string and the exact string `NaN` (the `pd.isna` and equality guards) give `0.0`;
* a float that is NaN gives `0.0`; other floats fall through to the final
  branch, whose guard turns `±inf` into `0.0` and keeps finite values;
* a string equal (lowercased, stripped) to `nan` gives `0.0`; otherwise the
  string is reduced to its digit/point/minus characters and passed to
  `float(...)`, and only a NaN result is filtered — a decimal string past the
  double-overflow threshold therefore comes back as `±inf`;
* an int is converted by `float(n)` (exception on overflow, caught to `0.0`).
-/
def clean_numeric_value (value : PyVal) : PyFloat :=
  match value with
  | .none => .finite 0
  | .float .nan => .finite 0
  | .float .inf => .finite 0
  | .float .negInf => .finite 0
  | .float (.finite q) => .finite q
  | .int n => .finite (if overflowBound ≤ |intToQ n| then 0 else intToQ n)
  | .str s =>
    if s = "" ∨ s = "NaN" then .finite 0
    else if String.mk (pyStrip (pyLower s.data)) = "nan" then .finite 0
    else
      let cleaned := s.data.filter (fun c => c.isDigit ∨ c = '.' ∨ c = '-')
      if cleaned = [] ∨ cleaned = ['-'] ∨ cleaned = ['.'] then .finite 0
      else
        match parseDecimal cleaned with
        | Option.none => .finite 0
        | some q =>
          if overflowBound ≤ q then .inf
          else if q ≤ -overflowBound then .negInf
          else .finite q

/-- Python `round(x)` to an integer: round half to even. -/
def roundHalfEven (q : ℚ) : ℤ :=
  let f := q.floor
  let r := q - intToQ f
  if r < 1 / 2 then f
  else if 1 / 2 < r then f + 1
  else if f % 2 = 0 then f else f + 1

/-- Python `round(x, 2)`. -/
def round2 (q : ℚ) : ℚ := intToQ (roundHalfEven (q * 100)) / 100

/-- Model of `CoreTaxConverter.safe_round` with the default 2 decimals
(src/main.py lines 162-169): non-finite values become `0.0`. -/
def safe_round (v : PyFloat) : ℚ :=
  match v with
  | .finite q => round2 q
  | _ => 0

/-- The fixed VAT rate `self.ppn_rate = 0.12`. -/
def ppn_rate : ℚ := 12 / 100

/-- Model of `CoreTaxConverter.calculate_dpp_and_ppn` (src/main.py lines 57-82).
The input is re-cleaned, non-positive totals give `(0.0, 0.0)`,
`dpp = T / 1.12`, `ppn = dpp * 0.12` (from the *unrounded* dpp), both results
rounded to 2 decimals.  A non-finite cleaned input ends as `(0.0, 0.0)`:
`+inf` is zeroed by the line-75 guard, `-inf` by the `<= 0` test, and NaN
(which no branch of `clean_numeric_value` produces) by both guards. -/
def calculate_dpp_and_ppn (price_after_tax : PyVal) : ℚ × ℚ :=
  match clean_numeric_value price_after_tax with
  | .finite q =>
    if q ≤ 0 then (0, 0)
    else
      let dpp := q / (1 + ppn_rate)
      let ppn := dpp * ppn_rate
      (round2 dpp, round2 ppn)
  | _ => (0, 0)

/-! ### Date handling (`CoreTaxConverter.format_date`, src/main.py lines 212-227) -/

/-- Python `str.split(sep)` for a one-character separator. -/
def splitOnChar (sep : Char) : List Char → List (List Char)
  | [] => [[]]
  | c :: rest =>
    if c = sep then [] :: splitOnChar sep rest
    else
      match splitOnChar sep rest with
      | h :: t => (c :: h) :: t
      | [] => [[c]]

def digitVal (c : Char) : ℕ := c.toNat - 48

def isDigit19 (c : Char) : Bool := '1' ≤ c ∧ c ≤ '9'

/-- The `%d` field of `_strptime`: regex `3[01]|[12]\d|0[1-9]|[1-9]| [1-9]`,
matched against one whole inter-separator component of the input. -/
def matchDay : List Char → Option ℕ
  | [c] => if isDigit19 c then some (digitVal c) else Option.none
  | [c1, c2] =>
    if c1 = ' ' then (if isDigit19 c2 then some (digitVal c2) else Option.none)
    else if c1 = '3' ∧ (c2 = '0' ∨ c2 = '1') then some (30 + digitVal c2)
    else if (c1 = '1' ∨ c1 = '2') ∧ c2.isDigit then some (10 * digitVal c1 + digitVal c2)
    else if c1 = '0' ∧ isDigit19 c2 then some (digitVal c2)
    else Option.none
  | _ => Option.none

/-- The `%m` field of `_strptime`: regex `1[0-2]|0[1-9]|[1-9]`. -/
def matchMonth : List Char → Option ℕ
  | [c] => if isDigit19 c then some (digitVal c) else Option.none
  | [c1, c2] =>
    if c1 = '1' ∧ (c2 = '0' ∨ c2 = '1' ∨ c2 = '2') then some (10 + digitVal c2)
    else if c1 = '0' ∧ isDigit19 c2 then some (digitVal c2)
    else Option.none
  | _ => Option.none

/-- The `%y` field: exactly two digits; `_strptime` maps 00-68 to 2000-2068
and 69-99 to 1969-1999. -/
def matchY2 : List Char → Option ℕ
  | [c1, c2] =>
    if c1.isDigit ∧ c2.isDigit then
      let v := 10 * digitVal c1 + digitVal c2
      some (if v ≤ 68 then 2000 + v else 1900 + v)
    else Option.none
  | _ => Option.none

/-- The `%Y` field: exactly four digits. -/
def matchY4 : List Char → Option ℕ
  | [c1, c2, c3, c4] =>
    if c1.isDigit ∧ c2.isDigit ∧ c3.isDigit ∧ c4.isDigit then
      some (1000 * digitVal c1 + 100 * digitVal c2 + 10 * digitVal c3 + digitVal c4)
    else Option.none
  | _ => Option.none

structure Date where
  year : ℕ
  month : ℕ
  day : ℕ
deriving DecidableEq, Repr

def isLeap (y : ℕ) : Bool := (y % 4 = 0 ∧ y % 100 ≠ 0) ∨ y % 400 = 0

def daysInMonth (y m : ℕ) : ℕ :=
  if m = 2 then (if isLeap y then 29 else 28)
  else if m = 4 ∨ m = 6 ∨ m = 9 ∨ m = 11 then 30 else 31

/-- Python `datetime(y, m, d)` construction as performed by `strptime`: raises
(`none`) unless `MINYEAR ≤ y ≤ MAXYEAR`, the month is 1-12 and the day fits
the month. -/
def mkDate (y m d : ℕ) : Option Date :=
  if 1 ≤ y ∧ y ≤ 9999 ∧ 1 ≤ m ∧ m ≤ 12 ∧ 1 ≤ d ∧ d ≤ daysInMonth y m then some ⟨y, m, d⟩
  else Option.none

/-- Python `datetime.strptime(s, "%d.%m.%y")`. -/
def parseFormatDotDMy (s : String) : Option Date :=
  match splitOnChar '.' s.data with
  | [a, b, c] => do
    let d ← matchDay a
    let m ← matchMonth b
    let y ← matchY2 c
    mkDate y m d
  | _ => Option.none

/-- Python `datetime.strptime(s, "%d/%m/%Y")`. -/
def parseFormatSlashDMY (s : String) : Option Date :=
  match splitOnChar '/' s.data with
  | [a, b, c] => do
    let d ← matchDay a
    let m ← matchMonth b
    let y ← matchY4 c
    mkDate y m d
  | _ => Option.none

/-- Python `datetime.strptime(s, "%Y-%m-%d")`. -/
def parseFormatIsoYMD (s : String) : Option Date :=
  match splitOnChar '-' s.data with
  | [a, b, c] => do
    let y ← matchY4 a
    let m ← matchMonth b
    let d ← matchDay c
    mkDate y m d
  | _ => Option.none

/-- Python `datetime.strptime(s, "%d-%m-%Y")`. -/
def parseFormatDashDMY (s : String) : Option Date :=
  match splitOnChar '-' s.data with
  | [a, b, c] => do
    let d ← matchDay a
    let m ← matchMonth b
    let y ← matchY4 c
    mkDate y m d
  | _ => Option.none

/-- The `for fmt in date_formats` loop of src/main.py lines 219-225: the fixed
ordered list of formats `%d.%m.%y`, `%d/%m/%Y`, `%Y-%m-%d`, `%d-%m-%Y`, first
successful parse wins. -/
def tryDateFormats (s : String) : Option Date :=
  match parseFormatDotDMy s with
  | some d => some d
  | Option.none =>
    match parseFormatSlashDMY s with
    | some d => some d
    | Option.none =>
      match parseFormatIsoYMD s with
      | some d => some d
      | Option.none => parseFormatDashDMY s

/-- Decimal print of a natural, zero-padded on the left to `width`. -/
def padNum (width n : ℕ) : String :=
  let s := toString n
  String.mk (List.replicate (width - s.length) '0' ++ s.data)

/-- Python `parsed_date.strftime("%Y-%m-%d")`. -/
def strftimeYMD (d : Date) : String :=
  padNum 4 d.year ++ "-" ++ padNum 2 d.month ++ "-" ++ padNum 2 d.day

/-- Model of `CoreTaxConverter.format_date` (src/main.py lines 212-227).  The call
`datetime.now().strftime("%Y-%m-%d")` is passed in as the `today` parameter.
`pd.isna` is true exactly of `None` and of a NaN float; non-string, non-NA
values fall through every branch to the final `return` of today's date. -/
def format_date (today : String) (date_value : PyVal) : String :=
  match date_value with
  | .none => today
  | .float .nan => today
  | .str s =>
    match tryDateFormats s with
    | some d => strftimeYMD d
    | Option.none => today
  | _ => today

/-! ### Records and the row loop (`process_sales_data`, `validate_record`,
`create_fallback_record`, src/main.py lines 84-210) -/

/-- An output record: the Python dict of lines 126-146, kept in insertion
order. -/
abbrev Record := List (String × PyVal)

/-- Exact decimal print of a rational whose denominator divides a power of
ten (every finite IEEE double has this shape); models Python `str()` of a
finite float under this development's exact-value reading of floats. -/
def floatRepr (q : ℚ) : String :=
  let e := ((List.range 1075).findIdx? (fun k => q.den ∣ 10 ^ k)).getD 0
  let a := (q.num.natAbs * 10 ^ e) / q.den
  let sign := if q.num < 0 then "-" else ""
  let ip := a / 10 ^ e
  let fp := a % 10 ^ e
  if e = 0 then sign ++ toString ip ++ ".0"
  else sign ++ toString ip ++ "." ++ padNum e fp

/-- Python `str()` on the values a cell can hold. -/
def pyStr : PyVal → String
  | .str s => s
  | .none => "None"
  | .float .nan => "nan"
  | .float .inf => "inf"
  | .float .negInf => "-inf"
  | .float (.finite q) => floatRepr q
  | .int n => toString n

/-- Python `str(row.get(name, default)).strip()`. -/
def strField (v : PyVal) : String := pyStripS (pyStr v)

/-- Pandas `row.get(name, default)`: the row's values keyed by the (already
stripped) column names; a missing column yields the default. -/
def rowGet (cols : List String) (vals : List PyVal) (name : String) (dflt : PyVal) : PyVal :=
  match (cols.zip vals).find? (fun p => p.1 == name) with
  | some p => p.2
  | Option.none => dflt

/-- Python `int()` on a finite float: truncation toward zero. -/
def pytrunc (q : ℚ) : ℤ := if q < 0 then -((-q).floor) else q.floor

/-- Model of `int(qty) if qty > 0 else 1` (src/main.py line 133).  `int()` of `+inf`
raises `OverflowError` and of NaN raises `ValueError`; both are modelled as
`none` (the raise is then caught by the per-row `except`). -/
def jumlahOf (qty : PyFloat) : Option ℤ :=
  if PyFloat.lt (.finite 0) qty then
    match qty with
    | .finite p => some (pytrunc p)
    | _ => Option.none
  else some 1

/-- Python `a / b` for a finite float `a` and a float `b`: every call site
guarantees `b > 0`; a finite value divided by `+inf` is `0.0`. -/
def pyDivQ (a : ℚ) (b : PyFloat) : PyFloat :=
  match b with
  | .finite p => .finite (a / p)
  | .nan => .nan
  | _ => .finite 0

/-- One iteration of the `for idx, row in sales_df.iterrows()` body
(src/main.py lines 94-146) up to the record literal, before the
`validate_record` sweep.  `none` models the body raising; within the
modelled fragment the only raising operation is `int(qty)` on a non-finite
quantity.  The `unit_price` of line 116 is computed by the source but never
used and is omitted here. -/
def processOneRow (today : String) (cols : List String) (idx : ℕ) (vals : List PyVal) :
    Option Record :=
  let get := rowGet cols vals
  let customer_code := strField (get "CustomerCode" (.str ""))
  let customer_name := strField (get "CustomerName" (.str ""))
  let invoice_no := strField (get "InvoiceNo" (.str ""))
  let invoice_date := get "InvoiceDate" (.str "")
  let item_code := strField (get "ItemCode" (.str ""))
  let item_name := strField (get "ItemName" (.str ""))
  let qty0 := clean_numeric_value (get "Qty" (.int 0))
  let price_after_tax := clean_numeric_value (get "PriceAfterTax" (.int 0))
  let invoice_amount := clean_numeric_value (get "InvoiceAmount" (.int 0))
  let qty := pymax qty0 (.finite 1)
  let total_amount0 := if PyFloat.lt (.finite 0) invoice_amount then invoice_amount else price_after_tax
  let total_amount := pymax total_amount0 (.finite 0)
  let dppPpn := calculate_dpp_and_ppn (.float total_amount)
  let dpp_total := dppPpn.1
  let ppn_total := dppPpn.2
  let dpp_unit := if PyFloat.lt (.finite 0) qty then pyDivQ dpp_total qty else .finite 0
  let formatted_date := format_date today invoice_date
  match jumlahOf qty with
  | Option.none => Option.none
  | some jumlah => some [
      ("baris", .int (idx + 1)),
      ("barang_jasa", .str "A"),
      ("kode_barang_jasa",
        .str (if item_code ≠ "" then String.mk (item_code.data.take 20) else "310000")),
      ("nama_barang_jasa",
        .str (if item_name ≠ "" then String.mk (item_name.data.take 255) else "Barang/Jasa")),
      ("nama_satuan_ukur", .str "UM.0003"),
      ("harga_satuan", .float (.finite (safe_round dpp_unit))),
      ("jumlah_barang_jasa", .int jumlah),
      ("total_diskon", .float (.finite 0)),
      ("dpp", .float (.finite (safe_round (.finite dpp_total)))),
      ("dpp_nilai_lain", .float (.finite (safe_round (.finite dpp_total)))),
      ("tarif_ppn", .int 12),
      ("ppn", .float (.finite (safe_round (.finite ppn_total)))),
      ("tarif_ppnbm", .int 0),
      ("ppnbm", .float (.finite 0)),
      ("customer_code", .str customer_code),
      ("customer_name", .str customer_name),
      ("invoice_no", .str invoice_no),
      ("invoice_date", .str formatted_date),
      ("total_amount", .float (.finite (safe_round total_amount)))]

/-- The keys that get `0.0` (rather than int `0`) when a non-finite number is
found by `validate_record` (src/main.py line 178). -/
def floatZeroKeys : List String :=
  ["harga_satuan", "dpp", "dpp_nilai_lain", "ppn", "ppnbm", "total_diskon", "total_amount"]

/-- One field of `CoreTaxConverter.validate_record` (src/main.py lines
171-186): a non-finite number is zeroed (to `0.0` for the listed float keys,
to int `0` otherwise), a string lowercasing to `nan` is blanked, anything
else is kept. -/
def validate_value (key : String) (value : PyVal) : PyVal :=
  match value with
  | .int n => .int n
  | .float f =>
    if f.isFinite then .float f
    else if key ∈ floatZeroKeys then .float (.finite 0) else .int 0
  | .str s => if String.mk (pyLower s.data) = "nan" then .str "" else .str s
  | .none => .none

/-- Model of `CoreTaxConverter.validate_record` (src/main.py lines 171-186). -/
def validate_record (record : Record) : Record :=
  record.map (fun kv => (kv.1, validate_value kv.1 kv.2))

/-- Model of `CoreTaxConverter.create_fallback_record` (src/main.py lines 188-210);
`datetime.now().strftime("%Y-%m-%d")` is the `today` parameter. -/
def create_fallback_record (today : String) (row_number : ℤ) : Record := [
  ("baris", .int row_number),
  ("barang_jasa", .str "A"),
  ("kode_barang_jasa", .str "310000"),
  ("nama_barang_jasa", .str "Data Error - Manual Review Required"),
  ("nama_satuan_ukur", .str "UM.0003"),
  ("harga_satuan", .float (.finite 0)),
  ("jumlah_barang_jasa", .int 1),
  ("total_diskon", .float (.finite 0)),
  ("dpp", .float (.finite 0)),
  ("dpp_nilai_lain", .float (.finite 0)),
  ("tarif_ppn", .int 12),
  ("ppn", .float (.finite 0)),
  ("tarif_ppnbm", .int 0),
  ("ppnbm", .float (.finite 0)),
  ("customer_code", .str ""),
  ("customer_name", .str ""),
  ("invoice_no", .str ""),
  ("invoice_date", .str today),
  ("total_amount", .float (.finite 0))]

/-- The input table: column names plus rows of values (each row aligned with
the column list). -/
structure DataFrame where
  cols : List String
  rows : List (List PyVal)
deriving DecidableEq, Repr

/-- The `try`/`except` around one row (src/main.py lines 94-157): a raising
body — whether the modelled `int(qty)` raise or an unmodelled one signalled
by the `fail` oracle — is replaced by the fallback record for `idx + 1`;
a successful body is swept by `validate_record` and appended. -/
def rowOutput (fail : ℕ → Bool) (today : String) (cols : List String) (idx : ℕ)
    (vals : List PyVal) : Record :=
  if fail idx then create_fallback_record today (idx + 1)
  else
    match processOneRow today cols idx vals with
    | some record => validate_record record
    | Option.none => create_fallback_record today (idx + 1)

/-- The `for idx, row in sales_df.iterrows()` loop: `idx` enumerates the rows
from 0 (the data frame produced by `pd.read_excel` carries the default
`RangeIndex`). -/
def processRows (fail : ℕ → Bool) (today : String) (cols : List String) :
    ℕ → List (List PyVal) → List Record
  | _, [] => []
  | idx, vals :: rest =>
    rowOutput fail today cols idx vals :: processRows fail today cols (idx + 1) rest

/-- Model of `CoreTaxConverter.process_sales_data` (src/main.py lines 84-160), with
the in-place column strip of line 89 (`sales_df.columns =
sales_df.columns.str.strip()`) made explicit: the result pairs the record
list with the data frame as the call leaves it.  `fail idx = true` models the
row-`idx` body raising an unexpected exception outside the modelled fragment
(caught by the `except` of line 152). -/
def process_sales_data (fail : ℕ → Bool) (today : String) (df : DataFrame) :
    List Record × DataFrame :=
  let cols := df.cols.map pyStripS
  (processRows fail today cols 0 df.rows, ⟨cols, df.rows⟩)

/-! ### Detail sheet emission (`create_detail_faktur_sheet`, `safe_write_cell`,
src/main.py lines 268-331).

The spreadsheet container may reject a value on write (openpyxl raises for,
e.g., strings with illegal characters); which values it rejects lies outside
the modelled fragment and is abstracted as the `rejects` oracle.  Rejection
depends on the value alone, never on the position. -/

/-- The columns (line 321) that receive numeric `0` when a `None` value is
written: Harga Satuan, Total Diskon, DPP, DPP Nilai Lain, PPN, PPnBM. -/
def noneNumericCols : List ℕ := [6, 8, 9, 10, 12, 14]

/-- The guard of src/main.py lines 310-323: the value actually handed to
`sheet.cell` by `safe_write_cell` before any exception handling. -/
def safe_value (col : ℕ) (value : PyVal) : PyVal :=
  match value with
  | .int n => .int n
  | .float f => if f.isFinite then .float f else .int 0
  | .str s => if String.mk (pyLower s.data) = "nan" then .str "" else .str s
  | .none => if col ∈ noneNumericCols then .int 0 else .str ""

/-- The per-cell fallback of src/main.py line 330: `0` for columns
1,6,7,8,9,10,11,12,13,14, the empty string otherwise. -/
def cell_fallback (col : ℕ) : PyVal :=
  if col ∈ [1, 6, 7, 8, 9, 10, 11, 12, 13, 14] then .int 0 else .str ""

/-- Model of `CoreTaxConverter.safe_write_cell` (src/main.py lines 307-331): the value
written into the cell, or `none` when the function itself raises (only
possible when the fallback write of line 331 raises in turn). -/
def safe_write_cell (rejects : PyVal → Bool) (col : ℕ) (value : PyVal) : Option PyVal :=
  let sv := safe_value col value
  if rejects sv then
    if rejects (cell_fallback col) then Option.none else some (cell_fallback col)
  else some sv

/-- The row-level fallback of src/main.py line 304, used when the `try` of
lines 283-299 raises: `0` for columns 6,8,9,10,12,14, `1` for column 7 (the
quantity), `A` for column 2 (the item type), the empty string otherwise. -/
def row_fallback (col : ℕ) : PyVal :=
  if col ∈ noneNumericCols then .int 0
  else if col = 7 then .int 1
  else if col = 2 then .str "A"
  else .str ""

/-- The record keys written to columns 1-14 (lines 285-298), in order. -/
def detailKeys : List String :=
  ["baris", "barang_jasa", "kode_barang_jasa", "nama_barang_jasa",
   "nama_satuan_ukur", "harga_satuan", "jumlah_barang_jasa", "total_diskon",
   "dpp", "dpp_nilai_lain", "tarif_ppn", "ppn", "tarif_ppnbm", "ppnbm"]

/-- The fixed header row of the Detail sheet (lines 271-275). -/
def detailHeaders : List String :=
  ["Baris", "Barang.Jasa", "Kode Barang Jasa", "Nama Barang.Jasa",
   "Nama Satuan Ukur", "Harga Satuan", "Jumlah Barang Jasa", "Total Diskon",
   "DPP", "DPP Nilai Lain", "Tarif PPN", "PPN", "Tarif PPnBM", "PPnBM"]

/-- Write the cells of one list of values into columns `c, c+1, ...` via
`safe_write_cell`. -/
def writeCells (rejects : PyVal → Bool) : ℕ → List PyVal → List (Option PyVal)
  | _, [] => []
  | c, v :: rest => safe_write_cell rejects c v :: writeCells rejects (c + 1) rest

/-- The `except` branch of lines 300-305: every one of the 14 cells is
rewritten with its `row_fallback` value, again through `safe_write_cell`;
if one of those writes raises, the exception leaves the function (`none`). -/
def rowFallbackWrite (rejects : PyVal → Bool) : Option (List PyVal) :=
  let written := writeCells rejects 1 ((List.range 14).map (fun i => row_fallback (i + 1)))
  if written.all Option.isSome then some (written.filterMap id) else Option.none

/-- One data row of the Detail sheet (the `try`/`except` of lines 283-305):
look up the 14 keys and write them through `safe_write_cell`; if a lookup
raises (`KeyError`, key absent) or a write raises out of `safe_write_cell`,
the row-level handler rewrites all 14 cells with the row fallbacks. -/
def writeDetailRow (rejects : PyVal → Bool) (record : Record) : Option (List PyVal) :=
  match detailKeys.mapM (fun k => List.lookup k record) with
  | some vs =>
    let written := writeCells rejects 1 vs
    if written.all Option.isSome then some (written.filterMap id)
    else rowFallbackWrite rejects
  | Option.none => rowFallbackWrite rejects

/-- The `for row_idx, record in enumerate(processed_data, 2)` loop of lines
282-305: rows are written in order; an exception leaving one row's handler
aborts the whole sheet (`none`). -/
def writeDetailRows (rejects : PyVal → Bool) : List Record → Option (List (List PyVal))
  | [] => some []
  | r :: rest =>
    match writeDetailRow rejects r, writeDetailRows rejects rest with
    | some row, some rows => some (row :: rows)
    | _, _ => Option.none

/-- Model of `CoreTaxConverter.create_detail_faktur_sheet` (src/main.py lines
268-306): the header row (fixed legal literals, written without a guard)
followed by one written row per record; `none` when an unrecovered exception
aborts the sheet. -/
def create_detail_faktur_sheet (rejects : PyVal → Bool) (records : List Record) :
    Option (List (List PyVal)) :=
  match writeDetailRows rejects records with
  | some dataRows => some ((detailHeaders.map PyVal.str) :: dataRows)
  | Option.none => Option.none

/-! ### Helper lemmas -/

theorem validate_value_idem (k : String) (v : PyVal) :
    validate_value k (validate_value k v) = validate_value k v := by
  cases v with
  | int n => rfl
  | none => rfl
  | float f =>
    cases f with
    | finite q => rfl
    | nan =>
      by_cases hk : k ∈ floatZeroKeys
      · simp [validate_value, hk, PyFloat.isFinite]
      · simp [validate_value, hk, PyFloat.isFinite]
    | inf =>
      by_cases hk : k ∈ floatZeroKeys
      · simp [validate_value, hk, PyFloat.isFinite]
      · simp [validate_value, hk, PyFloat.isFinite]
    | negInf =>
      by_cases hk : k ∈ floatZeroKeys
      · simp [validate_value, hk, PyFloat.isFinite]
      · simp [validate_value, hk, PyFloat.isFinite]
  | str s =>
    by_cases hn : String.mk (pyLower s.data) = "nan"
    · have hempty : ¬ (String.mk (pyLower ("" : String).data) = "nan") := by
        decide
      simp [validate_value, hn, hempty]
    · simp [validate_value, hn]

/-! ### Claims -/

/-- The 310-character decimal string `1` followed by 309 `0`s: its numeric
value `10^309` exceeds the largest finite IEEE double, so Python's
`float()` turns it into `inf` without raising. -/
def overflowingDigitString : String := String.mk ('1' :: List.replicate 309 '0')

/-- Claim C1, a code bug.  `clean_numeric_value` does return a finite number on
every input listed by the claim (`None`, NaN, `±inf`, `""`, `"nan"`,
`"abc123.45xyz"`, `"-"`), but it is *not* finiteness-preserving on every
input: a decimal string whose value overflows the IEEE-double range comes
back from `float(cleaned)` as `inf`, and the string branch (src/main.py
lines 41-46) double-checks the result only against NaN, not infinity, so the
function returns `inf`. -/
theorem clean_numeric_value_overflow_leak :
    clean_numeric_value .none = .finite 0 ∧
    clean_numeric_value (.float .nan) = .finite 0 ∧
    clean_numeric_value (.float .inf) = .finite 0 ∧
    clean_numeric_value (.float .negInf) = .finite 0 ∧
    clean_numeric_value (.str "") = .finite 0 ∧
    clean_numeric_value (.str "nan") = .finite 0 ∧
    clean_numeric_value (.str "NaN") = .finite 0 ∧
    clean_numeric_value (.str "abc123.45xyz") = .finite (12345 / 100) ∧
    clean_numeric_value (.str "-") = .finite 0 ∧
    clean_numeric_value (.str overflowingDigitString) = .inf ∧
    (clean_numeric_value (.str overflowingDigitString)).isFinite = false := by
  refine ⟨?_, ?_, ?_, ?_, ?_, ?_, ?_, ?_, ?_, ?_, ?_⟩ <;> decide

/-- The pair claimed by C4, built from the claim's own words: the tax amount
recomputed from the *already rounded* tax base. -/
def derive_tax_claim (T : ℚ) : ℚ × ℚ :=
  (round2 (T / (1 + ppn_rate)), round2 (round2 (T / (1 + ppn_rate)) * ppn_rate))

/-- Claim C4, counterexample.  At the tax-inclusive total `T = 11.24928`
(so `T / 1.12 = 10.044` exactly), the code returns
`(10.04, round2 10.044 * 0.12) = (10.04, 1.21)` — the tax amount is rounded
from the *unrounded* base `10.044 * 0.12 = 1.20528` — while the claim's
formula gives `(10.04, round2 (10.04 * 0.12)) = (10.04, 1.20)`. -/
theorem calculate_dpp_and_ppn_claim_counterexample :
    (0 : ℚ) < 1124928 / 100000 ∧
    calculate_dpp_and_ppn (.float (.finite (1124928 / 100000))) = (1004 / 100, 121 / 100) ∧
    derive_tax_claim (1124928 / 100000) = (1004 / 100, 120 / 100) ∧
    calculate_dpp_and_ppn (.float (.finite (1124928 / 100000))) ≠
      derive_tax_claim (1124928 / 100000) := by
  refine ⟨?_, ?_, ?_, ?_⟩ <;> decide

/-- Claim C4 (corrected, amended form).  For every tax-inclusive total `T > 0`,
`calculate_dpp_and_ppn` returns `(round(T/1.12, 2), round((T/1.12)*0.12, 2))`
— the tax amount is computed from the *unrounded* tax base — and for every
`T ≤ 0` it returns `(0.0, 0.0)`; the claim's two numeric examples hold. -/
theorem calculate_dpp_and_ppn_amended :
    (∀ T : ℚ, calculate_dpp_and_ppn (.float (.finite T)) =
      if T ≤ 0 then (0, 0)
      else (round2 (T / (1 + ppn_rate)), round2 (T / (1 + ppn_rate) * ppn_rate))) ∧
    calculate_dpp_and_ppn (.float (.finite 1120)) = (1000, 120) ∧
    calculate_dpp_and_ppn (.float (.finite 560)) = (500, 60) := by
  refine ⟨fun T => ?_, by decide, by decide⟩
  rfl

/-- Claim C7 (confirmed).  The final validation pass is idempotent: applying
`validate_record` twice yields exactly the same record as applying it
once. -/
theorem validate_record_idempotent (record : Record) :
    validate_record (validate_record record) = validate_record record := by
  unfold validate_record
  rw [List.map_map]
  apply List.map_congr_left
  intro kv _
  simp [Function.comp, validate_value_idem]

/-- Claim C8, counterexample.  On a table whose single column is named
`" Qty "`, `process_sales_data` strips the column names in place
(src/main.py line 89), so the data frame the caller handed in is changed:
its column list afterwards is `["Qty"]`, not `[" Qty "]`. -/
theorem process_sales_data_mutates_columns :
    (process_sales_data (fun _ => false) "2026-10-12"
      ⟨[" Qty "], [[PyVal.int 1]]⟩).2 ≠ ⟨[" Qty "], [[PyVal.int 1]]⟩ := by
  decide

/-- Claim C8 (corrected, amended form).  The row values are never mutated, but the column
names are replaced by their whitespace-stripped forms; the input table is
left entirely unchanged exactly when every column name is already
stripped. -/
theorem process_sales_data_frame_effect :
    (∀ fail today df, (process_sales_data fail today df).2.rows = df.rows) ∧
    (∀ fail today df, (process_sales_data fail today df).2.cols = df.cols.map pyStripS) ∧
    (∀ fail today df, (∀ c ∈ df.cols, pyStripS c = c) →
      (process_sales_data fail today df).2 = df) := by
  refine ⟨fun _ _ _ => rfl, fun _ _ _ => rfl, fun fail today df h => ?_⟩
  have hc : df.cols.map pyStripS = df.cols := by
    calc df.cols.map pyStripS = df.cols.map id := List.map_congr_left h
    _ = df.cols := List.map_id df.cols
  show (⟨df.cols.map pyStripS, df.rows⟩ : DataFrame) = df
  rw [hc]

/-- Witness for `process_sales_data_frame_effect`: a table whose column name
carries no surrounding whitespace is returned unchanged. -/
theorem process_sales_data_frame_effect_witness :
    (process_sales_data (fun _ => false) "2026-10-12"
      ⟨["Qty"], [[PyVal.int 1]]⟩).2 = ⟨["Qty"], [[PyVal.int 1]]⟩ :=
  process_sales_data_frame_effect.2.2 (fun _ => false) "2026-10-12"
    ⟨["Qty"], [[PyVal.int 1]]⟩ (by decide)

theorem processRows_length (fail : ℕ → Bool) (today : String) (cols : List String) :
    ∀ (k : ℕ) (rows : List (List PyVal)),
      (processRows fail today cols k rows).length = rows.length := by
  intro k rows
  induction rows generalizing k with
  | nil => rfl
  | cons v rest ih => simp [processRows, ih]

theorem processRows_fail_getElem (fail : ℕ → Bool) (today : String) (cols : List String) :
    ∀ (rows : List (List PyVal)) (k i : ℕ), i < rows.length → fail (k + i) = true →
      (processRows fail today cols k rows)[i]? =
        some (create_fallback_record today ((k : ℤ) + i + 1)) := by
  intro rows
  induction rows with
  | nil => intro k i h; simp at h
  | cons v rest ih =>
    intro k i hlt hf
    cases i with
    | zero =>
      have hk : fail k = true := by simpa using hf
      simp [processRows, rowOutput, hk]
    | succ j =>
      have hf' : fail (k + 1 + j) = true := by
        have : k + 1 + j = k + (j + 1) := by omega
        rw [this]; exact hf
      have := ih (k + 1) j (by simpa using hlt) hf'
      simp only [processRows, List.getElem?_cons_succ]
      rw [this]
      congr 2
      push_cast
      ring

/-- Claim C2 (confirmed).  `process_sales_data` is total in the model (no Lean
function raises), and for every input — whatever the per-row failure oracle
does — the output record list has exactly the length of the input row list;
a row whose body raises sits in the output at its own position as the
fallback record, not dropped. -/
theorem process_sales_data_row_count :
    ∀ (fail : ℕ → Bool) (today : String) (df : DataFrame),
      ((process_sales_data fail today df).1).length = df.rows.length ∧
      (∀ i, i < df.rows.length → fail i = true →
        ((process_sales_data fail today df).1)[i]? =
          some (create_fallback_record today ((i : ℤ) + 1))) := by
  intro fail today df
  constructor
  · exact processRows_length fail today (df.cols.map pyStripS) 0 df.rows
  · intro i hi hf
    have := processRows_fail_getElem fail today (df.cols.map pyStripS) df.rows 0 i hi
      (by simpa using hf)
    simpa using this

/-- Witness for `process_sales_data_row_count`: on a one-row table whose row
fails, the output still has one record, namely the fallback record for row
1. -/
theorem process_sales_data_row_count_witness :
    ((process_sales_data (fun _ => true) "2026-10-12"
        ⟨["Qty"], [[PyVal.int 1]]⟩).1).length = 1 ∧
    ((process_sales_data (fun _ => true) "2026-10-12"
        ⟨["Qty"], [[PyVal.int 1]]⟩).1)[0]? =
      some (create_fallback_record "2026-10-12" ((0 : ℤ) + 1)) := by
  have h := process_sales_data_row_count (fun _ => true) "2026-10-12"
    ⟨["Qty"], [[PyVal.int 1]]⟩
  exact ⟨h.1, h.2 0 (by decide) rfl⟩

theorem processOneRow_baris (today : String) (cols : List String) (idx : ℕ)
    (vals : List PyVal) (record : Record)
    (h : processOneRow today cols idx vals = some record) :
    List.lookup "baris" (validate_record record) = some (PyVal.int ((idx : ℤ) + 1)) := by
  cases hj : jumlahOf (pymax (clean_numeric_value (rowGet cols vals "Qty" (.int 0)))
      (.finite 1)) with
  | none => simp [processOneRow, hj] at h
  | some jumlah =>
    simp only [processOneRow, hj] at h
    cases h
    rfl

theorem rowOutput_baris (fail : ℕ → Bool) (today : String) (cols : List String)
    (idx : ℕ) (vals : List PyVal) :
    List.lookup "baris" (rowOutput fail today cols idx vals) =
      some (PyVal.int ((idx : ℤ) + 1)) := by
  unfold rowOutput
  split
  · rfl
  · cases h : processOneRow today cols idx vals with
    | none => rfl
    | some record => exact processOneRow_baris today cols idx vals record h

theorem processRows_baris (fail : ℕ → Bool) (today : String) (cols : List String) :
    ∀ (rows : List (List PyVal)) (k : ℕ),
      (processRows fail today cols k rows).map (fun r => List.lookup "baris" r) =
        (List.range' (k + 1) rows.length).map (fun n => some (PyVal.int (n : ℤ))) := by
  intro rows
  induction rows with
  | nil => intro k; rfl
  | cons v rest ih =>
    intro k
    simp only [processRows, List.map_cons, List.length_cons, List.range'_succ]
    rw [rowOutput_baris, ih (k + 1)]
    congr 2

/-- Claim C3 (confirmed).  The `baris` values of the output records are exactly
`1, 2, ..., N` in order — strictly increasing by 1 from 1, no gaps —
whatever the per-row failure oracle does (a failing row contributes the
fallback record, which carries the same `idx + 1`). -/
theorem process_sales_data_baris_continuity :
    ∀ (fail : ℕ → Bool) (today : String) (df : DataFrame),
      ((process_sales_data fail today df).1).map (fun r => List.lookup "baris" r) =
        (List.range' 1 df.rows.length).map (fun n => some (PyVal.int (n : ℤ))) := by
  intro fail today df
  exact processRows_baris fail today (df.cols.map pyStripS) df.rows 0

/-- Claim C5 (confirmed).  `format_date` tries the four date patterns in
exactly the order `%d.%m.%y`, `%d/%m/%Y`, `%Y-%m-%d`, `%d-%m-%Y`, returns
the first successful parse formatted `YYYY-MM-DD`, parses `"15.03.24"` to
`"2024-03-15"` and `"01/02/2024"` to `"2024-02-01"`, and yields the current
processing date for a missing (`None`/NaN) or unparseable value. -/
theorem format_date_priority_order :
    (∀ today : String, format_date today (.str "15.03.24") = "2024-03-15") ∧
    (∀ today : String, format_date today (.str "01/02/2024") = "2024-02-01") ∧
    (∀ today : String, format_date today .none = today) ∧
    (∀ today : String, format_date today (.float .nan) = today) ∧
    (∀ (today : String) (s : String), tryDateFormats s = Option.none →
      format_date today (.str s) = today) ∧
    (∀ (today s : String) (d : Date), parseFormatDotDMy s = some d →
      format_date today (.str s) = strftimeYMD d) ∧
    (∀ (today s : String) (d : Date), parseFormatDotDMy s = Option.none →
      parseFormatSlashDMY s = some d →
      format_date today (.str s) = strftimeYMD d) ∧
    (∀ (today s : String) (d : Date), parseFormatDotDMy s = Option.none →
      parseFormatSlashDMY s = Option.none → parseFormatIsoYMD s = some d →
      format_date today (.str s) = strftimeYMD d) ∧
    (∀ (today s : String) (d : Date), parseFormatDotDMy s = Option.none →
      parseFormatSlashDMY s = Option.none → parseFormatIsoYMD s = Option.none →
      parseFormatDashDMY s = some d →
      format_date today (.str s) = strftimeYMD d) := by
  have h1 : tryDateFormats "15.03.24" = some ⟨2024, 3, 15⟩ := by decide
  have h2 : tryDateFormats "01/02/2024" = some ⟨2024, 2, 1⟩ := by decide
  refine ⟨?_, ?_, fun _ => rfl, fun _ => rfl, ?_, ?_, ?_, ?_, ?_⟩
  · intro today; simp only [format_date, h1]; decide
  · intro today; simp only [format_date, h2]; decide
  · intro today s h; simp [format_date, h]
  · intro today s d hd; simp [format_date, tryDateFormats, hd]
  · intro today s d h1' h2'; simp [format_date, tryDateFormats, h1', h2']
  · intro today s d h1' h2' h3'; simp [format_date, tryDateFormats, h1', h2', h3']
  · intro today s d h1' h2' h3' h4'; simp [format_date, tryDateFormats, h1', h2', h3', h4']

/-- Witness for `format_date_priority_order`: `"01-02-2024"` is rejected by
the first three patterns (its separator is the dash and its first component
is not a 4-digit year), parsed by the fourth as day-month-year, and an
unparseable string falls back to the processing date. -/
theorem format_date_priority_order_witness :
    format_date "2026-10-12" (.str "01-02-2024") = strftimeYMD ⟨2024, 2, 1⟩ ∧
    format_date "2026-10-12" (.str "hello") = "2026-10-12" := by
  constructor
  · exact format_date_priority_order.2.2.2.2.2.2.2.2 "2026-10-12" "01-02-2024"
      ⟨2024, 2, 1⟩ (by decide) (by decide) (by decide) (by decide)
  · exact format_date_priority_order.2.2.2.2.1 "2026-10-12" "hello" (by decide)

theorem safe_write_cell_isSome (rejects : PyVal → Bool) (col : ℕ) (v : PyVal)
    (hf : rejects (cell_fallback col) = false) :
    (safe_write_cell rejects col v).isSome = true := by
  unfold safe_write_cell
  dsimp only
  split
  · rw [hf]; rfl
  · rfl

theorem writeCells_all_isSome (rejects : PyVal → Bool)
    (hf : ∀ c, rejects (cell_fallback c) = false) :
    ∀ (c : ℕ) (vs : List PyVal), (writeCells rejects c vs).all Option.isSome = true := by
  intro c vs
  induction vs generalizing c with
  | nil => rfl
  | cons v rest ih =>
    simp [writeCells, ih, safe_write_cell_isSome rejects c v (hf c)]

theorem rowFallbackWrite_isSome (rejects : PyVal → Bool)
    (hf : ∀ c, rejects (cell_fallback c) = false) :
    ∃ row, rowFallbackWrite rejects = some row := by
  unfold rowFallbackWrite
  simp [writeCells_all_isSome rejects hf]

theorem writeDetailRow_isSome (rejects : PyVal → Bool) (record : Record)
    (hf : ∀ c, rejects (cell_fallback c) = false) :
    ∃ row, writeDetailRow rejects record = some row := by
  unfold writeDetailRow
  split
  · simp [writeCells_all_isSome rejects hf]
  · exact rowFallbackWrite_isSome rejects hf

theorem writeDetailRows_some (rejects : PyVal → Bool)
    (hf : ∀ c, rejects (cell_fallback c) = false) :
    ∀ records, ∃ rows, writeDetailRows rejects records = some rows ∧
      rows.length = records.length := by
  intro records
  induction records with
  | nil => exact ⟨[], rfl, rfl⟩
  | cons r rest ih =>
    obtain ⟨rows, hrows, hlen⟩ := ih
    obtain ⟨row, hrow⟩ := writeDetailRow_isSome rejects r hf
    refine ⟨row :: rows, ?_, by simp [hlen]⟩
    simp [writeDetailRows, hrow, hrows]

/-- Claim C6, counterexample.  A cell write that itself raises in the
item-type column (column 2) is replaced by `safe_write_cell`'s own fallback
(src/main.py line 330), which is the *empty string* for column 2, not the
`A` claimed (the `A` default belongs to the row-level handler of line
304, which runs only when a record key is missing or a cell-level recovery
raised again). -/
theorem safe_write_cell_item_type_counterexample :
    safe_write_cell (fun v => v == PyVal.str "X") 2 (PyVal.str "X") =
      some (PyVal.str "") ∧
    cell_fallback 2 = PyVal.str "" ∧
    PyVal.str "" ≠ PyVal.str "A" := by
  refine ⟨?_, ?_, ?_⟩ <;> decide

/-- Claim C6 (corrected, amended form).  Provided the spreadsheet container accepts the
neutral defaults themselves (it does: they are `0` and `""`), a cell write
that raises is caught and replaced by the column fallback of line 330 —
`0` for the numeric columns 1, 6, 7, 8, 9, 10, 11, 12, 13, 14 and the empty
string otherwise, including the item-type column 2 — every write
completes, and the sheet is never aborted: it always holds the header row
plus one row per record. -/
theorem safe_write_cell_fallback_amended :
    ∀ (rejects : PyVal → Bool),
      (∀ c, rejects (cell_fallback c) = false) →
      (∀ (col : ℕ) (v : PyVal), rejects (safe_value col v) = true →
        safe_write_cell rejects col v = some (cell_fallback col)) ∧
      (∀ (col : ℕ) (v : PyVal), (safe_write_cell rejects col v).isSome = true) ∧
      (∀ records : List Record, ∃ sheet,
        create_detail_faktur_sheet rejects records = some sheet ∧
        sheet.length = records.length + 1) := by
  intro rejects hf
  refine ⟨?_, ?_, ?_⟩
  · intro col v hcv
    unfold safe_write_cell
    dsimp only
    rw [hcv, hf col]
    rfl
  · intro col v
    exact safe_write_cell_isSome rejects col v (hf col)
  · intro records
    obtain ⟨rows, hrows, hlen⟩ := writeDetailRows_some rejects hf records
    refine ⟨(detailHeaders.map PyVal.str) :: rows, ?_, by simp [hlen]⟩
    simp [create_detail_faktur_sheet, hrows]

/-- Witness for `safe_write_cell_fallback_amended`: with a container that
rejects exactly the string `"X"`, a rejected write in column 2 stores the
empty-string fallback, and an empty record list still yields the one-row
(header-only) sheet. -/
theorem safe_write_cell_fallback_amended_witness :
    safe_write_cell (fun v => v == PyVal.str "X") 2 (PyVal.str "X") =
      some (cell_fallback 2) ∧
    (∃ sheet,
      create_detail_faktur_sheet (fun v => v == PyVal.str "X") [] = some sheet ∧
      sheet.length = 0 + 1) := by
  have h := safe_write_cell_fallback_amended (fun v => v == PyVal.str "X")
    (by intro c; unfold cell_fallback; split <;> rfl)
  exact ⟨h.1 2 (PyVal.str "X") (by decide), h.2.2 []⟩

/-- A one-row table whose text cells `ItemCode`/`ItemName` hold float NaN
(pandas reads an empty Excel text cell as a NaN float). -/
def nanTextRow : DataFrame :=
  { cols := ["ItemCode", "ItemName", "Qty", "PriceAfterTax"],
    rows := [[.float .nan, .float .nan, .int 2, .int 1120]] }

/-- Claim C9 (confirmed).  When a source text cell holds a float NaN, `str()`
turns it into the truthy string `"nan"`, which bypasses the empty-value
default branch — the raw record carries `nan`, not the defaults `310000` /
`Barang/Jasa` — and `validate_record` then blanks it, so the emitted
`kode_barang_jasa` / `nama_barang_jasa` are the empty string, not the
documented defaults. -/
theorem nan_text_cell_yields_empty_string :
    strField (PyVal.float .nan) = "nan" ∧
    (processOneRow "2026-10-12" nanTextRow.cols 0
        [.float .nan, .float .nan, .int 2, .int 1120]).map
      (fun r => (List.lookup "kode_barang_jasa" r, List.lookup "nama_barang_jasa" r)) =
      some (some (.str "nan"), some (.str "nan")) ∧
    (process_sales_data (fun _ => false) "2026-10-12" nanTextRow).1.map
      (fun r => (List.lookup "kode_barang_jasa" r, List.lookup "nama_barang_jasa" r)) =
      [(some (.str ""), some (.str ""))] := by
  refine ⟨?_, ?_, ?_⟩ <;> decide

theorem quantity_pipeline (v : PyVal) (q : ℚ)
    (h : pymax (clean_numeric_value v) (.finite 1) = .finite q) :
    jumlahOf (pymax (clean_numeric_value v) (.finite 1)) = some (pytrunc q) ∧
    1 ≤ q ∧ 1 ≤ pytrunc q := by
  have main : ∀ c : PyFloat, pymax c (.finite 1) = .finite q →
      jumlahOf (pymax c (.finite 1)) = some (pytrunc q) ∧ 1 ≤ q ∧ 1 ≤ pytrunc q := by
    intro c hc
    have hq1 : 1 ≤ q := by
      cases c with
      | finite p =>
        by_cases hp : p < 1
        · have : pymax (.finite p) (.finite 1) = .finite 1 := by
            simp [pymax, PyFloat.lt, hp]
          rw [this] at hc
          cases hc
          exact le_refl 1
        · have : pymax (.finite p) (.finite 1) = .finite p := by
            simp [pymax, PyFloat.lt, hp]
          rw [this] at hc
          cases hc
          linarith
      | nan => simp [pymax, PyFloat.lt] at hc
      | inf => simp [pymax, PyFloat.lt] at hc
      | negInf =>
        have : pymax PyFloat.negInf (.finite 1) = .finite 1 := by
          simp [pymax, PyFloat.lt]
        rw [this] at hc
        cases hc
        exact le_refl 1
    have htr : 1 ≤ pytrunc q := by
      unfold pytrunc
      rw [if_neg (by linarith)]
      exact Rat.le_floor.mpr (by exact_mod_cast hq1)
    refine ⟨?_, hq1, htr⟩
    rw [hc]
    unfold jumlahOf
    have h0 : PyFloat.lt (.finite 0) (.finite q) = true := by
      simp [PyFloat.lt]; linarith
    rw [h0]
    rfl
  exact main (clean_numeric_value v) h

/-- A one-row table with the fractional quantity 2.9 and a tax-inclusive
price of 112. -/
def fractionalQtyRow : DataFrame :=
  { cols := ["Qty", "PriceAfterTax"],
    rows := [[.float (.finite (29 / 10)), .int 112]] }

/-- Claim C10 (confirmed).  The emitted quantity is
`int(max(clean_numeric_value(Qty), 1))` — truncation toward zero of the
floored-at-1 cleaned quantity, hence always ≥ 1 — while `harga_satuan`
divides the tax base by the *untruncated* quantity: with `Qty = 2.9` and
`PriceAfterTax = 112` the record carries `jumlah = int(2.9) = 2`,
`dpp = 100.00` and `harga_satuan = round(100 / 2.9, 2) = 34.48`, so
`harga_satuan * jumlah = 68.96 ≠ 100.00 = dpp`. -/
theorem quantity_truncation_and_unit_price :
    (∀ (v : PyVal) (q : ℚ), pymax (clean_numeric_value v) (.finite 1) = .finite q →
      jumlahOf (pymax (clean_numeric_value v) (.finite 1)) = some (pytrunc q) ∧
      1 ≤ q ∧ 1 ≤ pytrunc q) ∧
    pytrunc (29 / 10) = 2 ∧
    round2 (100 / (29 / 10)) = 3448 / 100 ∧
    (process_sales_data (fun _ => false) "2026-10-12" fractionalQtyRow).1.map
      (fun r => (List.lookup "jumlah_barang_jasa" r, List.lookup "harga_satuan" r,
                 List.lookup "dpp" r)) =
      [(some (.int 2), some (.float (.finite (3448 / 100))), some (.float (.finite 100)))] ∧
    (3448 / 100 : ℚ) * 2 ≠ 100 := by
  exact ⟨quantity_pipeline, by decide, by decide, by decide, by decide⟩

/-- Witness for `quantity_truncation_and_unit_price`: the quantity pipeline
at the concrete cleaned quantity 2.9. -/
theorem quantity_truncation_and_unit_price_witness :
    jumlahOf (pymax (clean_numeric_value (PyVal.float (.finite (29 / 10)))) (.finite 1)) =
      some (pytrunc (29 / 10)) ∧
    (1 : ℚ) ≤ 29 / 10 ∧ 1 ≤ pytrunc (29 / 10) :=
  quantity_truncation_and_unit_price.1 (PyVal.float (.finite (29 / 10))) (29 / 10)
    (by decide)

end ErpToCoreTax
